import Mathlib

/-!
Shallow embedding of scripts/seed_users.py: a seeding script that derives ten
synthetic identities, hashes each password with bcrypt, and performs a
conditional put into a DynamoDB table, with a fallback query on the username
secondary index when the condition fails.

External effects are made explicit: the uuid4 draws, the timestamps, the
bcrypt salts and the fault behaviour of the remote calls are oracle inputs,
and the console / network activity is recorded as a trace of events.
-/

namespace SeedUsers

/-- Python format spec 02d as used in the f-strings of the script: zero-pad a
natural number to at least two digits. -/
def format02 (n : Nat) : String :=
  if n < 10 then "0" ++ toString n else toString n

/-- Username derived from the index, source line 54: f"user{num:02d}". -/
def username (num : Nat) : String := "user" ++ format02 num

/-- Plaintext password derived from the index, source line 55: f"pwd{num:02d}". -/
def password (num : Nat) : String := "pwd" ++ format02 num

/-- Email derived from the index, source line 56. -/
def email (num : Nat) : String := username num ++ "@traffictacos.store"

/-- Display name derived from the index, source line 57. -/
def display_name (num : Nat) : String := "Test User " ++ format02 num

/-- Modelled from the spec: the bcrypt library (gensalt, hashpw, checkpw) is a
third-party dependency whose code is not in this repository. The spec describes
the hash as a salted one-way hash with a fixed cost factor, verified by a
verification function that succeeds exactly on the hashed plaintext. The model
keeps the cost and the salt explicit and stores an image of the plaintext
under the salt, which the verification function recomputes and compares. -/
structure BcryptHash where
  cost : Nat
  salt : Nat
  digest : Nat × String
deriving DecidableEq, Repr

/-- Modelled from the spec: bcrypt.hashpw applied to a plaintext and a salt of
the given cost. -/
def hashpw (plaintext : String) (saltValue cost : Nat) : BcryptHash :=
  { cost := cost, salt := saltValue, digest := (saltValue, plaintext) }

/-- Modelled from the spec: bcrypt.checkpw, the verification function: it
recomputes the digest of the candidate plaintext under the stored salt and
compares it with the stored digest. -/
def checkpw (plaintext : String) (h : BcryptHash) : Bool :=
  h.digest == (h.salt, plaintext)

/-- generate_password_hash, source lines 46-50: bcrypt.gensalt(rounds=10) then
bcrypt.hashpw. The random salt drawn by gensalt is an explicit argument. -/
def generate_password_hash (pw : String) (saltValue : Nat) : BcryptHash :=
  hashpw pw saltValue 10

/-- One item of the users table, source lines 71-80. All attributes are stored
as strings in DynamoDB; password_hash holds the serialized bcrypt hash, kept
structured here. -/
structure UserRecord where
  user_id : String
  username : String
  password_hash : BcryptHash
  email : String
  display_name : String
  role : String
  created_at : String
  updated_at : String
deriving DecidableEq, Repr

/-- The remote table, keyed by user_id. -/
abbrev Table := List UserRecord

/-- Whether the table holds an item with this user_id. The put_item condition
attribute_not_exists(user_id), source line 81, is evaluated against the
existing item with the same primary key, so it fails exactly when such an item
exists. -/
def hasUserId (t : Table) (uid : String) : Bool :=
  t.any (fun r => r.user_id == uid)

/-- Count returned by the query on username-index, source lines 87-95. -/
def usernameCount (t : Table) (u : String) : Nat :=
  (t.filter (fun r => r.username == u)).length

/-- Per-index outcome of create_user, one constructor per console status line
the source prints. -/
inductive Outcome where
  | created (user_id : String)
  | alreadyExistsSkip
  | conditionInconsistent
  | verifyFailed
  | createFailed
deriving DecidableEq, Repr

/-- Fault environment of one create_user call: whether put_item raises a
non-conditional exception (network, permission, throttling; the final except
branch, lines 101-102), and whether the fallback query raises (lines 99-100). -/
structure Env where
  putFault : Bool
  queryFault : Bool
deriving DecidableEq, Repr

/-- Environment in which every remote call succeeds. -/
def noFault : Env := { putFault := false, queryFault := false }

/-- Observable steps of a run: console output, remote calls, process exit. -/
inductive Event where
  | printImportHint
  | readConfig
  | printBanner
  | createClient
  | describeTable
  | printConnected
  | printConnectFail
  | printCreatingUser (num : Nat)
  | putItemAttempt (num : Nat)
  | queryAttempt (num : Nat)
  | printOutcome (num : Nat) (o : Outcome)
  | printSummary
  | exitProcess (code : Nat)
deriving DecidableEq, Repr

/-- The Item passed to put_item, source lines 71-80: role is the constant
"user" and both timestamps are the single value captured at line 59. -/
def seedItem (num : Nat) (uid now : String) (saltValue : Nat) : UserRecord :=
  { user_id := uid
    username := username num
    password_hash := generate_password_hash (password num) saltValue
    email := email num
    display_name := display_name num
    role := "user"
    created_at := now
    updated_at := now }

/-- create_user, source lines 52-104: derive the fields (the fresh uuid4, the
timestamp and the gensalt draw are inputs, minted by the caller's oracle),
attempt the conditional put, and on ConditionalCheckFailedException fall back
to the username-index query; every exception is caught, so the function always
returns. Result: the trace of events, the outcome, and the table after the
call. -/
def create_user (env : Env) (num : Nat) (uid now : String) (saltValue : Nat)
    (t : Table) : List Event × Outcome × Table :=
  let item := seedItem num uid now saltValue
  let pre : List Event := [Event.printCreatingUser num, Event.putItemAttempt num]
  if env.putFault then
    (pre ++ [Event.printOutcome num Outcome.createFailed], Outcome.createFailed, t)
  else if hasUserId t uid then
    if env.queryFault then
      (pre ++ [Event.queryAttempt num, Event.printOutcome num Outcome.verifyFailed],
        Outcome.verifyFailed, t)
    else if usernameCount t (username num) > 0 then
      (pre ++ [Event.queryAttempt num, Event.printOutcome num Outcome.alreadyExistsSkip],
        Outcome.alreadyExistsSkip, t)
    else
      (pre ++ [Event.queryAttempt num, Event.printOutcome num Outcome.conditionInconsistent],
        Outcome.conditionInconsistent, t)
  else
    (pre ++ [Event.printOutcome num (Outcome.created uid)],
      Outcome.created uid, item :: t)

/-- Record of one create_user invocation inside the loop: its index, the
uuid4 it minted, and its outcome. -/
structure Invocation where
  idx : Nat
  uid : String
  outcome : Outcome
deriving DecidableEq, Repr

/-- State threaded through the seeding loop: the number of uuid4 draws made so
far, the table, the trace, and the record of past invocations. -/
structure RunState where
  ctr : Nat
  table : Table
  events : List Event
  invocations : List Invocation
deriving Repr

/-- Oracle for the effects of one run: the stream of uuid4 draws (indexed by
draw number), the timestamp and gensalt draw captured by each index's call,
and each index's fault environment. -/
structure Oracle where
  uuids : Nat → String
  nows : Nat → String
  salts : Nat → Nat
  envs : Nat → Env

/-- One iteration of the loop body, source line 118: mint the next uuid4 and
run create_user. -/
def seedStep (ora : Oracle) (s : RunState) (num : Nat) : RunState :=
  let uid := ora.uuids s.ctr
  let r := create_user (ora.envs num) num uid (ora.nows num) (ora.salts num) s.table
  { ctr := s.ctr + 1
    table := r.2.2
    events := s.events ++ r.1
    invocations := s.invocations ++ [{ idx := num, uid := uid, outcome := r.2.1 }] }

/-- Loop indices, range(1, 11) at source line 117. -/
def seedIndices : List Nat := List.range' 1 10

/-- The seeding loop of main, source lines 117-118, from a starting table. -/
def seedLoop (ora : Oracle) (t : Table) : RunState :=
  seedIndices.foldl (seedStep ora) { ctr := 0, table := t, events := [], invocations := [] }

/-- Whole run of the script, module top level plus main, source lines 23-151:
the import guard, the configuration read, the banner, the client creation, the
connectivity check via describe_table, the loop, the summary and the exit
code. importsOk abstracts whether importing boto3 and bcrypt succeeds;
connectivityOk abstracts whether describe_table succeeds. -/
def script_run (importsOk connectivityOk : Bool) (ora : Oracle) (t : Table) :
    List Event × Nat × Table :=
  if !importsOk then
    ([Event.printImportHint, Event.exitProcess 1], 1, t)
  else
    let pre : List Event :=
      [Event.readConfig, Event.printBanner, Event.createClient, Event.describeTable]
    if !connectivityOk then
      (pre ++ [Event.printConnectFail, Event.exitProcess 1], 1, t)
    else
      let s := seedLoop ora t
      (pre ++ [Event.printConnected] ++ s.events ++
          [Event.printSummary, Event.exitProcess 0],
        0, s.table)

/-- Events that attempt a write against the table. -/
def isPutAttempt : Event → Bool
  | Event.putItemAttempt _ => true
  | _ => false

/-- Per-user progress output on the console. -/
def isPerUserOutput : Event → Bool
  | Event.printCreatingUser _ => true
  | Event.printOutcome _ _ => true
  | _ => false

/-- Events that read configuration, create the store client, or touch the
network. -/
def touchesConfigClientOrNet : Event → Bool
  | Event.readConfig => true
  | Event.createClient => true
  | Event.describeTable => true
  | Event.putItemAttempt _ => true
  | Event.queryAttempt _ => true
  | _ => false

/-- C2: for every index n with 1 <= n <= 10, create_user derives
username = "user" followed by n zero-padded to two digits and password = "pwd"
followed by n zero-padded to two digits; index 3 yields user03 and pwd03. -/
theorem username_password_format :
    seedIndices.map username =
      ["user01", "user02", "user03", "user04", "user05",
       "user06", "user07", "user08", "user09", "user10"] ∧
    seedIndices.map password =
      ["pwd01", "pwd02", "pwd03", "pwd04", "pwd05",
       "pwd06", "pwd07", "pwd08", "pwd09", "pwd10"] ∧
    username 3 = "user03" ∧ password 3 = "pwd03" :=
  ⟨rfl, rfl, rfl, rfl⟩

/-- C7: every record written by create_user has role equal to the constant
"user" and created_at equal to updated_at, both set to the single timestamp
captured at insert time; the table after a call is either unchanged or extended
by exactly that item. -/
theorem record_role_and_timestamps (env : Env) (num : Nat) (uid now : String)
    (saltValue : Nat) (t : Table) :
    ((create_user env num uid now saltValue t).2.2 = t ∨
      (create_user env num uid now saltValue t).2.2 =
        seedItem num uid now saltValue :: t) ∧
    (seedItem num uid now saltValue).role = "user" ∧
    (seedItem num uid now saltValue).created_at = now ∧
    (seedItem num uid now saltValue).updated_at = now := by
  refine ⟨?_, rfl, rfl, rfl⟩
  unfold create_user
  by_cases hp : env.putFault = true
  · simp [hp]
  · by_cases hc : hasUserId t uid = true
    · by_cases hqf : env.queryFault = true
      · simp [hp, hc, hqf]
      · by_cases hcnt : usernameCount t (username num) > 0
        · simp [hp, hc, hqf, hcnt]
        · simp [hp, hc, hqf, hcnt]
    · simp [hp, hc]

/-- C3: the conditional insert is keyed on the generated user_id, not on the
username: whenever the fresh user_id is absent from the table and put_item does
not fault, the insert succeeds and appends the item — with no hypothesis at all
on the usernames already present, so the condition alone does not exclude
inserting a record whose username already exists. -/
theorem put_condition_ignores_username (env : Env) (num : Nat)
    (uid now : String) (saltValue : Nat) (t : Table)
    (hput : env.putFault = false)
    (hfresh : hasUserId t uid = false) :
    (create_user env num uid now saltValue t).2.1 = Outcome.created uid ∧
    (create_user env num uid now saltValue t).2.2 =
      seedItem num uid now saltValue :: t := by
  unfold create_user
  simp [hput, hfresh]

/-- Witness for C3 at a table that already contains the username user01 under
a different user_id: the conditional insert still succeeds, producing a
duplicate username. -/
theorem put_condition_ignores_username_witness :
    (noFault.putFault = false ∧
      hasUserId [seedItem 1 "id-a" "t0" 0] "id-b" = false) ∧
    ((create_user noFault 1 "id-b" "t1" 0 [seedItem 1 "id-a" "t0" 0]).2.1 =
        Outcome.created "id-b" ∧
      (create_user noFault 1 "id-b" "t1" 0 [seedItem 1 "id-a" "t0" 0]).2.2 =
        seedItem 1 "id-b" "t1" 0 :: [seedItem 1 "id-a" "t0" 0]) :=
  ⟨⟨rfl, by decide⟩,
    put_condition_ignores_username noFault 1 "id-b" "t1" 0
      [seedItem 1 "id-a" "t0" 0] rfl (by decide)⟩

/-- C4: when the conditional put fails its condition check (the minted user_id
is already present), create_user queries the username secondary index; a
positive count resolves to the already-exists skip outcome, a zero count to
the inconsistent-state report; in both cases the table is unchanged and the
call returns normally. -/
theorem fallback_lookup_on_condition_failure (env : Env) (num : Nat)
    (uid now : String) (saltValue : Nat) (t : Table)
    (hput : env.putFault = false)
    (hq : env.queryFault = false)
    (hcond : hasUserId t uid = true) :
    (usernameCount t (username num) > 0 →
      (create_user env num uid now saltValue t).2.1 = Outcome.alreadyExistsSkip) ∧
    (usernameCount t (username num) = 0 →
      (create_user env num uid now saltValue t).2.1 = Outcome.conditionInconsistent) ∧
    (create_user env num uid now saltValue t).2.2 = t := by
  unfold create_user
  by_cases hcnt : usernameCount t (username num) > 0
  · simp [hput, hq, hcond, hcnt]
    omega
  · simp [hput, hq, hcond, hcnt]

/-- Witness for C4 at a table whose single record carries both the colliding
user_id and the username user01: the query finds it and the outcome is the
skip, with the table unchanged. -/
theorem fallback_lookup_on_condition_failure_witness :
    (noFault.putFault = false ∧ noFault.queryFault = false ∧
      hasUserId [seedItem 1 "id-a" "t0" 0] "id-a" = true) ∧
    ((usernameCount [seedItem 1 "id-a" "t0" 0] (username 1) > 0 →
        (create_user noFault 1 "id-a" "t1" 0 [seedItem 1 "id-a" "t0" 0]).2.1 =
          Outcome.alreadyExistsSkip) ∧
      (usernameCount [seedItem 1 "id-a" "t0" 0] (username 1) = 0 →
        (create_user noFault 1 "id-a" "t1" 0 [seedItem 1 "id-a" "t0" 0]).2.1 =
          Outcome.conditionInconsistent) ∧
      (create_user noFault 1 "id-a" "t1" 0 [seedItem 1 "id-a" "t0" 0]).2.2 =
        [seedItem 1 "id-a" "t0" 0]) :=
  ⟨⟨rfl, rfl, by decide⟩,
    fallback_lookup_on_condition_failure noFault 1 "id-a" "t1" 0
      [seedItem 1 "id-a" "t0" 0] rfl rfl (by decide)⟩

/-- C9: the stored password_hash is the salted bcrypt hash at the fixed cost
factor 10 of the derived plaintext password; verifying it against that
plaintext succeeds and verifying it against any other plaintext fails. -/
theorem password_hash_roundtrip (num : Nat) (uid now : String)
    (saltValue : Nat) (p : String) (hne : p ≠ password num) :
    (seedItem num uid now saltValue).password_hash =
      generate_password_hash (password num) saltValue ∧
    (generate_password_hash (password num) saltValue).cost = 10 ∧
    checkpw (password num) (generate_password_hash (password num) saltValue) = true ∧
    checkpw p (generate_password_hash (password num) saltValue) = false := by
  refine ⟨rfl, rfl, by simp [checkpw, generate_password_hash, hashpw], ?_⟩
  simp [checkpw, generate_password_hash, hashpw]
  exact fun h => absurd h.symm hne

/-- Witness for C9 at index 3 with salt 7 and the wrong plaintext pwd04. -/
theorem password_hash_roundtrip_witness :
    ("pwd04" ≠ password 3) ∧
    ((seedItem 3 "id-c" "t0" 7).password_hash =
        generate_password_hash (password 3) 7 ∧
      (generate_password_hash (password 3) 7).cost = 10 ∧
      checkpw (password 3) (generate_password_hash (password 3) 7) = true ∧
      checkpw "pwd04" (generate_password_hash (password 3) 7) = false) :=
  ⟨by decide, password_hash_roundtrip 3 "id-c" "t0" 7 "pwd04" (by decide)⟩

/-- The loop visits exactly the indices 1 through 10 in order, whatever the
fault environments, uuid draws and starting table are. -/
theorem seedLoop_idx_spine (ora : Oracle) (t : Table) :
    (seedLoop ora t).invocations.map (fun v => v.idx) = seedIndices := by
  rfl

/-- The k-th invocation of the loop mints the k-th uuid4 draw of the stream,
whatever the outcomes of the earlier invocations were: draws are consumed one
per invocation and never reused. -/
theorem seedLoop_uid_spine (ora : Oracle) (t : Table) :
    (seedLoop ora t).invocations.map (fun v => v.uid) =
      (List.range 10).map ora.uuids := by
  rfl

/-- C5: with the imports in place, the process exits with status 1 exactly
when the connectivity check fails; under any per-index fault environment the
loop still visits every index and the process exits with status 0 after a
successful connectivity check. -/
theorem exit_code_policy (connectivityOk : Bool) (ora : Oracle) (t : Table) :
    (script_run true connectivityOk ora t).2.1 =
      (if connectivityOk then 0 else 1) ∧
    (seedLoop ora t).invocations.map (fun v => v.idx) = seedIndices := by
  refine ⟨?_, seedLoop_idx_spine ora t⟩
  cases connectivityOk <;> rfl

/-- C6: when the connectivity check fails, the run makes no write attempt and
prints no per-user progress — its whole trace is the banner-and-config prelude,
the failure message and the exit — the table is untouched, the exit status is 1
and the final event is the non-zero exit. -/
theorem connect_fail_no_writes (ora : Oracle) (t : Table) :
    (script_run true false ora t).1 =
      [Event.readConfig, Event.printBanner, Event.createClient,
        Event.describeTable, Event.printConnectFail, Event.exitProcess 1] ∧
    ((script_run true false ora t).1.all
        (fun e => !(isPutAttempt e) && !(isPerUserOutput e))) = true ∧
    (script_run true false ora t).1.getLast? = some (Event.exitProcess 1) ∧
    (script_run true false ora t).2.1 = 1 ∧
    (script_run true false ora t).2.2 = t :=
  ⟨rfl, rfl, rfl, rfl, rfl⟩

/-- C10: when importing the store client library or the hashing library fails,
the run prints the installation hint and exits with status 1, with no
configuration read, no client creation and no network activity on its trace,
and the table untouched. -/
theorem import_guard_exits_first (connectivityOk : Bool) (ora : Oracle)
    (t : Table) :
    (script_run false connectivityOk ora t).1 =
      [Event.printImportHint, Event.exitProcess 1] ∧
    ((script_run false connectivityOk ora t).1.all
        (fun e => !(touchesConfigClientOrNet e))) = true ∧
    (script_run false connectivityOk ora t).2.1 = 1 ∧
    (script_run false connectivityOk ora t).2.2 = t :=
  ⟨rfl, rfl, rfl, rfl⟩

/-- Concrete oracle whose uuid4 stream draws pairwise distinct identifiers
and whose remote calls never fault. -/
def wOracle : Oracle :=
  { uuids := fun k => "uuid-" ++ toString k
    nows := fun _ => "t0"
    salts := fun _ => 0
    envs := fun _ => noFault }

/-- C8: every invocation of create_user mints a new user_id from the uuid4
stream — the k-th invocation consumes draw k, whatever happened before — so
invocations whose draws differ carry distinct user_id values; and an
invocation whose outcome is not a create leaves the table unchanged, so its
minted identifier is discarded, never stored or reused. -/
theorem fresh_uuid_per_invocation (ora : Oracle) (t : Table) (i j : Nat)
    (hi : i < 10) (hj : j < 10)
    (hdraw : ora.uuids i ≠ ora.uuids j) :
    ((seedLoop ora t).invocations.map (fun v => v.uid)).getD i "" = ora.uuids i ∧
    ((seedLoop ora t).invocations.map (fun v => v.uid)).getD j "" = ora.uuids j ∧
    ((seedLoop ora t).invocations.map (fun v => v.uid)).getD i "" ≠
      ((seedLoop ora t).invocations.map (fun v => v.uid)).getD j "" ∧
    (∀ env num uid now saltValue tb,
      (create_user env num uid now saltValue tb).2.1 ≠ Outcome.created uid →
        (create_user env num uid now saltValue tb).2.2 = tb) := by
  have h1 : ∀ k, k < 10 →
      ((seedLoop ora t).invocations.map (fun v => v.uid)).getD k "" =
        ora.uuids k := by
    intro k hk
    rw [seedLoop_uid_spine]
    interval_cases k <;> rfl
  refine ⟨h1 i hi, h1 j hj, ?_, ?_⟩
  · rw [h1 i hi, h1 j hj]
    exact hdraw
  · intro env num uid now saltValue tb hne
    by_cases hp : env.putFault = true
    · unfold create_user
      simp [hp]
    · by_cases hc : hasUserId tb uid = true
      · by_cases hqf : env.queryFault = true
        · unfold create_user
          simp [hp, hc, hqf]
        · by_cases hcnt : usernameCount tb (username num) > 0
          · unfold create_user
            simp [hp, hc, hqf, hcnt]
          · unfold create_user
            simp [hp, hc, hqf, hcnt]
      · exact absurd (by unfold create_user; simp [hp, hc]) hne

/-- Witness for C8 at the concrete oracle, the empty table and invocations 0
and 1. -/
theorem fresh_uuid_per_invocation_witness :
    (0 < 10 ∧ 1 < 10 ∧ wOracle.uuids 0 ≠ wOracle.uuids 1) ∧
    (((seedLoop wOracle []).invocations.map (fun v => v.uid)).getD 0 "" =
        wOracle.uuids 0 ∧
      ((seedLoop wOracle []).invocations.map (fun v => v.uid)).getD 1 "" =
        wOracle.uuids 1 ∧
      ((seedLoop wOracle []).invocations.map (fun v => v.uid)).getD 0 "" ≠
        ((seedLoop wOracle []).invocations.map (fun v => v.uid)).getD 1 "" ∧
      (∀ env num uid now saltValue tb,
        (create_user env num uid now saltValue tb).2.1 ≠ Outcome.created uid →
          (create_user env num uid now saltValue tb).2.2 = tb)) :=
  ⟨⟨by decide, by decide, by decide⟩,
    fresh_uuid_per_invocation wOracle [] 0 1 (by decide) (by decide) (by decide)⟩

/-- Table state that already contains all ten users user01..user10, as left by
a previous successful run. -/
def seededTable : Table :=
  (List.range' 1 10).map (fun n => seedItem n ("seeded-" ++ format02 n) "t0" 0)

/-- Oracle of a re-run: fresh uuid4 draws, distinct from every user_id already
in the table, and no remote faults. -/
def rerunOracle : Oracle :=
  { uuids := fun k => "fresh-" ++ toString k
    nows := fun _ => "t1"
    salts := fun _ => 1
    envs := fun _ => noFault }

/-- C1 fails on the code: re-running the seeding loop against a table that
already contains all ten users inserts ten further records — the condition
attribute_not_exists(user_id) is checked against the freshly minted uuid4, so
it passes for every index — and every index resolves to a create, never to the
already-exists skip. -/
theorem seed_rerun_inserts_duplicates :
    seededTable.length = 10 ∧
    (seedLoop rerunOracle seededTable).table.length = 20 ∧
    (seedLoop rerunOracle seededTable).invocations.map (fun v => v.outcome) =
      (List.range 10).map (fun k => Outcome.created ("fresh-" ++ toString k)) ∧
    ((seedLoop rerunOracle seededTable).invocations.all
      (fun v => v.outcome != Outcome.alreadyExistsSkip)) = true :=
  ⟨rfl, by decide, by decide, by decide⟩

end SeedUsers
